import Mathlib

/-!
Verification development for the creative-direction questionnaire
repository.  The Python source under `src/` is shallowly embedded:

* `src/src/models/question.py`  → `QuestionType`, `ValidationRule`, `Question`
* `src/src/services/validation.py` → `validate_response`, `validate_email`
* `src/src/services/r2_storage.py` → `R2StorageService` batch upload
* `src/src/models/response.py`, `src/src/models/session.py` → `Response`,
  `FormSession`, export serialization
* `app.py` navigation handlers → `advance_to_next_question`,
  `go_back_to_previous_question`, `submit_questionnaire`

Python dynamic values are embedded as explicit variants (`Answer`),
Python `datetime` values as rational timestamps (seconds), and external
capabilities (object storage, MIME table, the email transports, the
clock) as explicit parameters.
-/

namespace CDQ

/-- The shapes a pending questionnaire answer can take in the source
(`answer_value: Any`): Python `None`, a string, or a list of strings.
(File-upload widget lists enter the model as the `list` variant for the
emptiness checks; their contents are handled by the storage layer.) -/
inductive Answer where
  | absent : Answer
  | str : String → Answer
  | list : List String → Answer
deriving DecidableEq

/-- Python emptiness of an answer.  `answer_value in (None, "", [])` and
the truthiness test `not answer_value` coincide on the three `Answer`
shapes, so one function embeds both expressions from
`validate_response`. -/
def answerEmpty : Answer → Bool
  | Answer.absent => true
  | Answer.str s => s = ""
  | Answer.list xs => xs = []

/-- Python `str.strip()` (restricted to the ASCII whitespace that
`Char.isWhitespace` covers, which is all the source's inputs use):
drop whitespace from both ends. -/
def pyStrip (s : String) : String :=
  ⟨((s.data.dropWhile Char.isWhitespace).reverse.dropWhile Char.isWhitespace).reverse⟩

/-- Does `needle` occur at the head of `hay`? -/
def matchesAt : List Char → List Char → Bool
  | [], _ => true
  | _ :: _, [] => false
  | n :: ns, h :: hs => n == h && matchesAt ns hs

/-- Substring occurrence on character lists (used to state that an error
message mentions a word). -/
def hasSubstr (needle : List Char) : List Char → Bool
  | [] => needle.isEmpty
  | c :: rest => matchesAt needle (c :: rest) || hasSubstr needle rest

/-- `QuestionType` enum from `src/src/models/question.py`. -/
inductive QuestionType where
  | multiple_choice
  | checkboxes
  | short_answer
  | paragraph
  | file_upload
deriving DecidableEq

/-- The `.value` string of each enum member. -/
def QuestionType.value : QuestionType → String
  | .multiple_choice => "multiple_choice"
  | .checkboxes => "checkboxes"
  | .short_answer => "short_answer"
  | .paragraph => "paragraph"
  | .file_upload => "file_upload"

/-- `ValidationRule` dataclass from `src/src/models/question.py`, with the
same defaults (`required=True`, everything else `None`). -/
structure ValidationRule where
  required : Bool := true
  min_length : Option Nat := Option.none
  max_length : Option Nat := Option.none
  min_selections : Option Nat := Option.none
  max_selections : Option Nat := Option.none
  allowed_file_types : Option (List String) := Option.none
  max_file_size_mb : Option Nat := Option.none
  max_total_size_mb : Option Nat := Option.none
  min_files : Option Nat := Option.none
  max_files : Option Nat := Option.none
deriving DecidableEq

/-- `Question` dataclass from `src/src/models/question.py`.  A Python
`options=None` is embedded as `[]` (the source only reads `options` on
choice questions, where the catalog always supplies a list), and
`__post_init__`'s default validation rule is the structure default. -/
structure Question where
  id : String
  text : String
  type : QuestionType
  description : Option String := Option.none
  options : List String := []
  validation : ValidationRule := {}
deriving DecidableEq

instance : Inhabited Question :=
  ⟨{ id := "", text := "", type := QuestionType.short_answer }⟩

/-- `_validate_multiple_choice` from `src/src/services/validation.py`. -/
def validate_multiple_choice (q : Question) (a : Answer) : Bool × Option String :=
  match a with
  | Answer.str s =>
      if s ∈ q.options then (true, Option.none)
      else (false, some "Invalid selection. Please choose from the available options.")
  | _ => (false, some "Please select one option.")

/-- The final loop of `_validate_checkboxes`: the first selection not in
`question.options` is rejected. -/
def validate_checkboxes_opts (q : Question) (xs : List String) : Bool × Option String :=
  match xs.find? (fun s => decide (s ∉ q.options)) with
  | some s => (false, some ("Invalid selection: '" ++ s ++ "'"))
  | Option.none => (true, Option.none)

/-- The max-selections check of `_validate_checkboxes` (runs after the
min-selections check). -/
def validate_checkboxes_max (q : Question) (xs : List String) (v : ValidationRule) :
    Bool × Option String :=
  match v.max_selections with
  | some m =>
      if xs.length > m then
        (false, some ("Please select at most " ++ toString m ++ " option(s)."))
      else validate_checkboxes_opts q xs
  | Option.none => validate_checkboxes_opts q xs

/-- `_validate_checkboxes` from `src/src/services/validation.py`: list
shape, then min selections, then max selections, then membership. -/
def validate_checkboxes (q : Question) (a : Answer) (v : ValidationRule) :
    Bool × Option String :=
  match a with
  | Answer.list xs =>
      match v.min_selections with
      | some m =>
          if xs.length < m then
            (false, some ("Please select at least " ++ toString m ++ " option(s)."))
          else validate_checkboxes_max q xs v
      | Option.none => validate_checkboxes_max q xs v
  | _ => (false, some "Please select at least one option.")

/-- The max-length check of `_validate_text` (runs after the min-length
check); `text` is already stripped. -/
def validate_text_max (text : String) (v : ValidationRule) : Bool × Option String :=
  match v.max_length with
  | some m =>
      if text.length > m then
        (false, some ("Please keep your answer under " ++ toString m ++
          " characters. Current length: " ++ toString text.length ++ " characters."))
      else (true, Option.none)
  | Option.none => (true, Option.none)

/-- `_validate_text` from `src/src/services/validation.py`: string shape,
strip, min length (message carries the minimum and the observed stripped
length), then max length. -/
def validate_text (a : Answer) (v : ValidationRule) (field_name : String) :
    Bool × Option String :=
  match a with
  | Answer.str s =>
      let text := pyStrip s
      match v.min_length with
      | some m =>
          if text.length < m then
            (false, some ("Please provide at least " ++ toString m ++
              " characters. Current length: " ++ toString text.length ++ " characters."))
          else validate_text_max text v
      | Option.none => validate_text_max text v
  | _ => (false, some ("Please provide text for this " ++ field_name ++ "."))

/-- `validate_response` from `src/src/services/validation.py`: the
required/empty check, the not-required/empty vacuous pass, then dispatch
on the question type. -/
def validate_response (q : Question) (a : Answer) : Bool × Option String :=
  let v := q.validation
  if v.required && answerEmpty a then
    (false, some "This question is required. Please provide an answer.")
  else if answerEmpty a && !v.required then
    (true, Option.none)
  else
    match q.type with
    | QuestionType.multiple_choice => validate_multiple_choice q a
    | QuestionType.checkboxes => validate_checkboxes q a v
    | QuestionType.short_answer => validate_text a v "short answer"
    | QuestionType.paragraph => validate_text a v "paragraph"
    | QuestionType.file_upload =>
        if v.required && answerEmpty a then (false, some "Please upload at least one file.")
        else (true, Option.none)

/-- Character class `[a-zA-Z0-9._%+-]` of the email regex. -/
def isLocalChar (c : Char) : Bool :=
  c.isAlphanum || c == '.' || c == '_' || c == '%' || c == '+' || c == '-'

/-- Character class `[a-zA-Z0-9.-]` of the email regex. -/
def isDomainChar (c : Char) : Bool :=
  c.isAlphanum || c == '.' || c == '-'

/-- Character class `[a-zA-Z]` of the email regex's top-level label. -/
def isTldChar (c : Char) : Bool :=
  c.isAlpha

/-- Executable matcher for the part of the email regex after the `@`:
`[a-zA-Z0-9.-]+\.[a-zA-Z]{2,}$`.  Splits at the last dot; equivalence
with the regex's language is proved in `emailMatch_iff_spec`. -/
def domainMatch (t : List Char) : Bool :=
  match t.reverse.dropWhile (fun c => decide (c ≠ '.')) with
  | [] => false
  | _ :: dRev =>
      decide (2 ≤ (t.reverse.takeWhile (fun c => decide (c ≠ '.'))).length) &&
        (t.reverse.takeWhile (fun c => decide (c ≠ '.'))).all isTldChar &&
        decide (dRev ≠ []) && dRev.all isDomainChar

/-- Executable matcher for the full email regex
`^[a-zA-Z0-9._%+-]+@[a-zA-Z0-9.-]+\.[a-zA-Z]{2,}$` of
`validate_email`; splits at the first `@` (no character class of the
pattern contains `@`, so a match has exactly one). -/
def emailMatch (cs : List Char) : Bool :=
  match cs.dropWhile (fun c => decide (c ≠ '@')) with
  | [] => false
  | _ :: t =>
      decide (cs.takeWhile (fun c => decide (c ≠ '@')) ≠ []) &&
        (cs.takeWhile (fun c => decide (c ≠ '@'))).all isLocalChar && domainMatch t

/-- The language of the email pattern, written the way the specification
describes it: some decomposition `local ++ "@" ++ domain ++ "." ++ tld`
with a nonempty local part over `[A-Za-z0-9._%+-]`, a nonempty domain
over `[A-Za-z0-9.-]`, and a top-level label of at least two alphabetic
characters. -/
def emailSpecLang (cs : List Char) : Prop :=
  ∃ l d t : List Char,
    cs = l ++ '@' :: (d ++ '.' :: t) ∧
    l ≠ [] ∧ l.all isLocalChar = true ∧
    d ≠ [] ∧ d.all isDomainChar = true ∧
    2 ≤ t.length ∧ t.all isTldChar = true

/-- `validate_email` from `src/src/services/validation.py`.  The argument
is `Option String` because the source also guards against a non-string
(`None`) argument; the falsy test rejects `none` and `""`, then the
stripped string is matched against the regex. -/
def validate_email (email : Option String) : Bool × Option String :=
  match email with
  | Option.none => (false, some "Please provide an email address.")
  | some s =>
      if s = "" then (false, some "Please provide an email address.")
      else if emailMatch (pyStrip s).data then (true, Option.none)
      else (false, some "Please provide a valid email address (e.g., name@example.com).")

/-! ### R2 storage service (`src/src/services/r2_storage.py`)

The service's external collaborators are collected in `R2Env`: the MIME
table behind `mimetypes.guess_type`, the outcome of each `put_object`
network call (the final error string the exception handlers of
`upload_file` produce, or success), the `datetime.now` timestamp string,
and the public bucket id. -/

/-- One file handed to `batch_upload_files`: its name and its byte size
(`seek`/`tell` on the binary stream yields the size). -/
structure UFile where
  name : String
  size : Nat
deriving DecidableEq

/-- The `validation_rules` dict after `dict.get` defaults are applied
inside `batch_upload_files`: `min_files` defaults to 1, `max_files` to
`float("inf")` (embedded as `Option.none`), `max_total_size_mb` to 200,
`allowed_types` to `[]`, `max_file_size_mb` to 20. -/
structure BatchRules where
  allowed_types : List String := []
  max_file_size_mb : Nat := 20
  max_total_size_mb : Nat := 200
  min_files : Nat := 1
  max_files : Option Nat := Option.none
deriving DecidableEq

/-- One record of the `uploaded_files` list `batch_upload_files` returns.
`mime_type` is `mimetypes.guess_type`'s result (an `Option`, though it is
always `some` once per-file validation passed). -/
structure UploadedFile where
  r2_key : String
  r2_url : String
  file_name : String
  file_size_bytes : Nat
  mime_type : Option String
deriving DecidableEq

/-- External collaborators of `R2StorageService`. -/
structure R2Env where
  guess_type : String → Option String
  upload_outcome : String → Option String
  timestamp : String
  bucket_id : String

/-- `R2StorageService.get_public_url`. -/
def get_public_url (env : R2Env) (r2_key : String) : String :=
  "https://pub-" ++ env.bucket_id ++ ".r2.dev/" ++ r2_key

/-- `R2StorageService.upload_file`: the source returns
`(success, r2_key, error_message)` where `success` holds exactly when
`error_message` is `None` and `r2_key` is set; embedded as `Except`.
The key is `session_folder/timestamp_filename`; the outcome of the
`put_object` call is `env.upload_outcome` (`some` carries the message the
exception handlers build). -/
def upload_file (env : R2Env) (file_name session_folder : String) : Except String String :=
  match env.upload_outcome file_name with
  | Option.none => Except.ok (session_folder ++ "/" ++ env.timestamp ++ "_" ++ file_name)
  | some e => Except.error e

/-- `R2StorageService.validate_file_upload`: the source returns
`(is_valid, error_message)` with `is_valid` exactly when the message is
`None`; embedded as the optional message.  Size cap, then MIME type
lookup, then MIME type allow-list. -/
def validate_file_upload (env : R2Env) (file_size_bytes : Nat) (file_name : String)
    (allowed_types : List String) (max_file_size_mb : Nat) : Option String :=
  if file_size_bytes > max_file_size_mb * 1024 * 1024 then
    some ("File '" ++ file_name ++ "' exceeds " ++ toString max_file_size_mb ++ "MB limit.")
  else
    match env.guess_type file_name with
    | Option.none => some ("Could not determine file type for '" ++ file_name ++ "'.")
    | some mime =>
        if mime ∈ allowed_types then Option.none
        else some ("File type '" ++ mime ++ "' not allowed. Allowed types: " ++
          String.intercalate ", " allowed_types)

/-- The per-file loop of `batch_upload_files`: each file is validated and,
when valid, uploaded; failures of either kind append their message to
`errors` and `continue` with the next file. -/
def batch_loop (env : R2Env) (files : List UFile) (session_folder : String)
    (rules : BatchRules) : List UploadedFile × List String :=
  match files with
  | [] => ([], [])
  | f :: rest =>
      let tl := batch_loop env rest session_folder rules
      match validate_file_upload env f.size f.name rules.allowed_types rules.max_file_size_mb with
      | some e => (tl.1, e :: tl.2)
      | Option.none =>
          match upload_file env f.name session_folder with
          | Except.error e => (tl.1, e :: tl.2)
          | Except.ok k =>
              ({ r2_key := k, r2_url := get_public_url env k, file_name := f.name,
                 file_size_bytes := f.size, mime_type := env.guess_type f.name } :: tl.1,
               tl.2)

/-- The total-size pre-check of `batch_upload_files` (the `.2f` MB figure
of the message is abbreviated to the byte count, which determines it;
no claim inspects this string). -/
def batch_total (env : R2Env) (files : List UFile) (session_folder : String)
    (rules : BatchRules) : List UploadedFile × List String :=
  let total_size_bytes := (files.map (fun f => f.size)).sum
  if total_size_bytes > rules.max_total_size_mb * 1024 * 1024 then
    ([], ["Total upload size exceeds " ++ toString rules.max_total_size_mb ++
      "MB limit. Current total: " ++ toString total_size_bytes ++ " bytes"])
  else batch_loop env files session_folder rules

/-- `R2StorageService.batch_upload_files`: file-count pre-checks (min then
max, each returning immediately), then the total-size pre-check (also
returning immediately), then the per-file validate-and-upload loop. -/
def batch_upload_files (env : R2Env) (files : List UFile) (session_folder : String)
    (rules : BatchRules) : List UploadedFile × List String :=
  if files.length < rules.min_files then
    ([], ["Please upload at least " ++ toString rules.min_files ++
      " file(s). Currently: " ++ toString files.length ++ " file(s)."])
  else
    match rules.max_files with
    | some m =>
        if files.length > m then
          ([], ["Please upload at most " ++ toString m ++
            " file(s). Currently: " ++ toString files.length ++ " file(s)."])
        else batch_total env files session_folder rules
    | Option.none => batch_total env files session_folder rules

/-- The error (if any) the per-file loop records for one file: its
validation failure, or else its upload failure. -/
def perFileError (env : R2Env) (session_folder : String) (rules : BatchRules)
    (f : UFile) : Option String :=
  match validate_file_upload env f.size f.name rules.allowed_types rules.max_file_size_mb with
  | some e => some e
  | Option.none =>
      match upload_file env f.name session_folder with
      | Except.error e => some e
      | Except.ok _ => Option.none

/-- The uploaded-file record (if any) the per-file loop produces for one
file: present exactly when its validation and its upload both succeed. -/
def perFileUploaded (env : R2Env) (session_folder : String) (rules : BatchRules)
    (f : UFile) : Option UploadedFile :=
  match validate_file_upload env f.size f.name rules.allowed_types rules.max_file_size_mb with
  | some _ => Option.none
  | Option.none =>
      match upload_file env f.name session_folder with
      | Except.error _ => Option.none
      | Except.ok k =>
          some { r2_key := k, r2_url := get_public_url env k, file_name := f.name,
                 file_size_bytes := f.size, mime_type := env.guess_type f.name }

/-! ### Response and session models (`src/src/models/response.py`,
`src/src/models/session.py`)

Timestamps are embedded as rational numbers of seconds; `isoformat`
rendering is kept as the timestamp itself (it is an injective rendering
and no claim inspects the text). -/

/-- `FileReference` dataclass from `src/src/models/response.py` (the
`mime_type` field receives `mimetypes.guess_type` output in `app.py`,
hence `Option String`). -/
structure FileReference where
  original_filename : String
  r2_key : String
  r2_url : String
  file_size_bytes : Nat
  mime_type : Option String
  upload_timestamp : ℚ
deriving DecidableEq

/-- `Response` dataclass from `src/src/models/response.py`. -/
structure Response where
  question_id : String
  answer_value : Answer
  timestamp : ℚ
  validation_status : Bool := false
  file_references : List FileReference := []
deriving DecidableEq

/-- `FormSession` dataclass from `src/src/models/session.py`.
`all_responses` is the Python dict embedded as an insertion-ordered
association list with unique keys; `r2_folder_path` is the value
`__post_init__` fixed at creation. -/
structure FormSession where
  session_id : String
  current_question_index : Nat := 0
  all_responses : List (String × Response) := []
  completion_status : Bool := false
  user_email : Option String := Option.none
  started_at : ℚ
  completed_at : Option ℚ := Option.none
  r2_folder_path : String
deriving DecidableEq

/-- Python dict insertion: overwrite in place when the key exists
(Python dicts keep the original position), else append. -/
def dictInsert (rs : List (String × Response)) (k : String) (r : Response) :
    List (String × Response) :=
  if rs.any (fun p => decide (p.1 = k)) then
    rs.map (fun p => if p.1 = k then (k, r) else p)
  else rs ++ [(k, r)]

/-- `FormSession.add_response`. -/
def FormSession.add_response (s : FormSession) (qid : String) (r : Response) : FormSession :=
  { s with all_responses := dictInsert s.all_responses qid r }

/-- `FormSession.get_response`. -/
def FormSession.get_response (s : FormSession) (qid : String) : Option Response :=
  (s.all_responses.find? (fun p => decide (p.1 = qid))).map (fun p => p.2)

/-- `FormSession.mark_complete`; `now` is the `datetime.now(UTC)` the
source reads there. -/
def FormSession.mark_complete (s : FormSession) (email : String) (now : ℚ) : FormSession :=
  { s with completion_status := true, user_email := some email, completed_at := some now }

/-- `FormSession.completion_time_minutes`:
`(completed_at - started_at).total_seconds() / 60`, `None` while the
session has no `completed_at`. -/
def FormSession.completion_time_minutes (s : FormSession) : Option ℚ :=
  match s.completed_at with
  | some c => some ((c - s.started_at) / 60)
  | Option.none => Option.none

/-- One record of the export document's `responses` array:
`Response.to_dict()` spread together with the `question_text` and
`question_type` keys `FormSession.to_dict` adds. -/
structure ExportResponse where
  question_id : String
  answer_value : Answer
  timestamp : ℚ
  validation_status : Bool
  file_references : List FileReference
  question_text : String
  question_type : String
deriving DecidableEq

/-- The `submission_metadata` object of the export document. -/
structure SubmissionMetadata where
  session_id : String
  submitted_at : Option ℚ
  user_email : Option String
  completion_time_minutes : Option ℚ
  started_at : ℚ
deriving DecidableEq

/-- The `r2_storage` object of the export document. -/
structure R2StorageInfo where
  bucket_name : String
  session_folder : String
deriving DecidableEq

/-- The export document `FormSession.to_dict` builds. -/
structure ExportDoc where
  questionnaire_version : String
  submission_metadata : SubmissionMetadata
  responses : List ExportResponse
  r2_storage : R2StorageInfo
deriving DecidableEq

/-- The export record for one response resolved against its catalog
question. -/
def mkExportResponse (r : Response) (q : Question) : ExportResponse :=
  { question_id := r.question_id, answer_value := r.answer_value, timestamp := r.timestamp,
    validation_status := r.validation_status, file_references := r.file_references,
    question_text := q.text, question_type := q.type.value }

/-- The `responses` comprehension of `FormSession.to_dict`: each stored
response's `question_id` is looked up in `questions_map`; a missing id
raises `KeyError` in Python, embedded as `Option.none` for the whole
list. -/
def exportResponses (rs : List (String × Response)) (m : List (String × Question)) :
    Option (List ExportResponse) :=
  match rs with
  | [] => some []
  | (qid, r) :: rest =>
      match List.lookup qid m, exportResponses rest m with
      | some q, some es => some (mkExportResponse r q :: es)
      | _, _ => Option.none

/-- `FormSession.to_dict` (also the body of `export_to_json` in
`src/src/utils/export.py`, which serializes exactly this structure).
`Option.none` embeds the `KeyError` a stored response with an unknown
question id would raise. -/
def FormSession.to_dict (s : FormSession) (m : List (String × Question)) : Option ExportDoc :=
  (exportResponses s.all_responses m).map (fun es =>
    { questionnaire_version := "1.0.0",
      submission_metadata :=
        { session_id := s.session_id, submitted_at := s.completed_at,
          user_email := s.user_email,
          completion_time_minutes := s.completion_time_minutes,
          started_at := s.started_at },
      responses := es,
      r2_storage := { bucket_name := "creative-direction-decks",
                      session_folder := s.r2_folder_path } })

/-! ### Navigation handlers (`app.py`)

The Streamlit session state the handlers touch is collected in
`AppState`.  The pending answer buffers (`input_*`,
`checkbox_selections_*`, `email_input`), the clock, the file-upload
outcome and the email-delivery outcome are explicit parameters. -/

/-- The slice of `st.session_state` the navigation handlers read and
write. -/
structure AppState where
  current_question_index : Int
  validation_error : Option String
  form_session : FormSession
  completion_json : Option ExportDoc := Option.none
  completion_email : Option String := Option.none
deriving DecidableEq

/-- The tail of `advance_to_next_question` after validation succeeded:
store the response, clear the error, advance the cursor. -/
def commitResponse (q : Question) (r : Response) (st : AppState) : AppState :=
  { st with form_session := st.form_session.add_response q.id r,
            validation_error := Option.none,
            current_question_index := st.current_question_index + 1 }

/-- `advance_to_next_question` from `app.py`.  `answer` is the pending
buffer for the current question; `fileUpload` is `handle_file_upload`'s
result `(success, file_references, error)` for file-upload questions
(its internals are storage-capability calls).  Python's negative-index
list semantics is never reached: the handler is only invoked on states
with a nonnegative cursor, and `catalog.getD` agrees with Python
indexing on `0 ≤ index < length` (larger indices return early). -/
def advance_to_next_question (catalog : List Question) (answer : Answer)
    (fileUpload : Bool × List FileReference × Option String) (now : ℚ)
    (st : AppState) : AppState :=
  if st.current_question_index ≥ (catalog.length : Int) then st
  else if (catalog.getD st.current_question_index.toNat default).type =
      QuestionType.file_upload then
    if answerEmpty answer then
      { st with validation_error := some "Please upload at least 5 images." }
    else if fileUpload.1 then
      commitResponse (catalog.getD st.current_question_index.toNat default)
        { question_id := (catalog.getD st.current_question_index.toNat default).id,
          answer_value := Answer.str (toString fileUpload.2.1.length ++ " files uploaded"),
          timestamp := now, validation_status := true,
          file_references := fileUpload.2.1 } st
    else { st with validation_error := fileUpload.2.2 }
  else if (validate_response (catalog.getD st.current_question_index.toNat default)
      answer).1 then
    commitResponse (catalog.getD st.current_question_index.toNat default)
      { question_id := (catalog.getD st.current_question_index.toNat default).id,
        answer_value := answer, timestamp := now, validation_status := true } st
  else
    { st with validation_error :=
        (validate_response (catalog.getD st.current_question_index.toNat default)
          answer).2 }

/-- `go_back_to_previous_question` from `app.py`. -/
def go_back_to_previous_question (st : AppState) : AppState :=
  if st.current_question_index > 0 then
    { st with current_question_index := st.current_question_index - 1,
              validation_error := Option.none }
  else st

/-- The `questions_map = {q.id: q for q in QUESTIONS}` dict of
`submit_questionnaire` (catalog ids are unique, so first-match lookup on
this list agrees with the Python dict). -/
def questionsMap (catalog : List Question) : List (String × Question) :=
  catalog.map (fun q => (q.id, q))

/-- `submit_questionnaire` from `app.py`: validate the email (on
rejection set the error and stop), mark the session complete, build the
export document, attempt delivery (`deliveryOk` — the whole attempt is
inside `try`/`except`, so its outcome cannot affect the state), store the
document and email, clear the error and advance the cursor.  The outer
`Option.none` embeds the `KeyError` an unresolvable stored question id
would raise during export (unreachable from states built by the
handlers). -/
def submit_questionnaire (m : List (String × Question)) (email_input : String)
    (deliveryOk : Bool) (now : ℚ) (st : AppState) : Option AppState :=
  let res := validate_email (some email_input)
  if res.1 then
    let session := st.form_session.mark_complete email_input now
    match session.to_dict m with
    | Option.none => Option.none
    | some doc =>
        some { st with form_session := session,
                       completion_json := some doc,
                       completion_email := some email_input,
                       validation_error := Option.none,
                       current_question_index := st.current_question_index + 1 }
  else some { st with validation_error := res.2 }

/-! ### Helper lemmas -/

/-- Two strings differing at some character position are distinct. -/
theorem string_ne_of_data_get (a b : String) (n : Nat) (h : a.data.get? n ≠ b.data.get? n) :
    a ≠ b :=
  fun he => h (congrArg (fun s => List.get? s.data n) he)

/-- The head of a `dropWhile` residue fails the predicate. -/
theorem dropWhile_head_not {α} {p : α → Bool} :
    ∀ {cs : List α} {c : α} {t : List α}, List.dropWhile p cs = c :: t → p c = false := by
  intro cs
  induction cs with
  | nil => intro c t h; simp [List.dropWhile] at h
  | cons x rest ih =>
      intro c t h
      rw [List.dropWhile_cons] at h
      by_cases hx : p x = true
      · exact ih (by simpa [hx] using h)
      · simp only [hx, if_false] at h
        simp only [Bool.not_eq_true] at hx
        cases h
        exact hx

/-- `takeWhile`/`dropWhile` across an append whose left part wholly
satisfies the predicate. -/
theorem takeWhile_dropWhile_append {α} (p : α → Bool) :
    ∀ (l r : List α), (∀ x ∈ l, p x = true) →
      (l ++ r).takeWhile p = l ++ r.takeWhile p ∧ (l ++ r).dropWhile p = r.dropWhile p := by
  intro l
  induction l with
  | nil => intro r _; simp
  | cons a l ih =>
      intro r h
      have ha : p a = true := h a (by simp)
      have hrec := ih r (fun x hx => h x (by simp [hx]))
      constructor
      · simp [List.takeWhile_cons, ha, hrec.1]
      · simp [List.dropWhile_cons, ha, hrec.2]

/-! ### Claim C1 -/

/-- A concrete required multiple-choice question (cf. `Q1` in
`src/src/config/questions.py`; `required = true` is the dataclass
default). -/
def qReqDemo : Question :=
  { id := "Q1", text := "Who are you?", type := QuestionType.multiple_choice,
    options := ["A", "B"] }

/-- C1: for any question whose rule has `required = true`,
`validate_response` on an empty answer (`None`, `""` or `[]`) rejects
with the fixed message, which mentions "required" — the equation holds
for every question type and every other rule field, so the check
precedes all type-specific checks; with `required = false` an empty
answer is accepted. -/
theorem C1_required_gate (q : Question) (a : Answer) (h : answerEmpty a = true) :
    (q.validation.required = true →
      validate_response q a =
        (false, some "This question is required. Please provide an answer.") ∧
      hasSubstr "required".data
        "This question is required. Please provide an answer.".data = true) ∧
    (q.validation.required = false → validate_response q a = (true, Option.none)) := by
  constructor
  · intro hreq
    refine ⟨?_, by decide⟩
    simp [validate_response, hreq, h]
  · intro hreq
    simp [validate_response, hreq, h]

/-- Witness for C1 at a concrete required question and each empty
answer shape. -/
theorem C1_required_gate_witness :
    answerEmpty Answer.absent = true ∧
    ((qReqDemo.validation.required = true →
      validate_response qReqDemo Answer.absent =
        (false, some "This question is required. Please provide an answer.") ∧
      hasSubstr "required".data
        "This question is required. Please provide an answer.".data = true) ∧
     (qReqDemo.validation.required = false →
      validate_response qReqDemo Answer.absent = (true, Option.none))) :=
  ⟨by decide, C1_required_gate qReqDemo Answer.absent (by decide)⟩

/-! ### Claim C9 -/

/-- C9: the required-emptiness check matches only `None`, `""` and `[]`,
so a whitespace-only string answer to a required text question passes it
and the outcome is decided by `_validate_text` alone: rejected exactly
when a positive `min_length` is set (the trimmed length is 0), accepted
when `min_length` is unset (or zero). -/
theorem C9_whitespace_only (q : Question) (s : String)
    (hty : q.type = QuestionType.short_answer ∨ q.type = QuestionType.paragraph)
    (hreq : q.validation.required = true) (hne : s ≠ "") (hws : pyStrip s = "") :
    ((validate_response q (Answer.str s)).1 = true ↔
      (q.validation.min_length = Option.none ∨ q.validation.min_length = some 0)) ∧
    (q.type = QuestionType.short_answer →
      validate_response q (Answer.str s) =
        validate_text (Answer.str s) q.validation "short answer") ∧
    (q.type = QuestionType.paragraph →
      validate_response q (Answer.str s) =
        validate_text (Answer.str s) q.validation "paragraph") := by
  have hemp : answerEmpty (Answer.str s) = false := by
    simp [answerEmpty, hne]
  have hdisp : ∀ fname, validate_text (Answer.str s) q.validation fname =
      validate_text (Answer.str s) q.validation "short answer" := by
    intro fname
    simp only [validate_text]
  have hred : validate_response q (Answer.str s) =
      validate_text (Answer.str s) q.validation "short answer" := by
    rcases hty with hty | hty <;>
      simp [validate_response, hemp, hty, hdisp]
  refine ⟨?_, fun _ => hred, fun _ => (hred.trans (hdisp "paragraph").symm)⟩
  rw [hred]
  rcases hmin : q.validation.min_length with _ | m
  · simp [validate_text, hws, hmin, validate_text_max]
    rcases hmax : q.validation.max_length with _ | mx <;> simp [hmax]
  · simp only [validate_text, hws, hmin]
    rcases Nat.eq_zero_or_pos m with hm | hm
    · subst hm
      simp [validate_text_max]
      rcases hmax : q.validation.max_length with _ | mx <;> simp [hmax]
    · simp [hm]
      omega

/-- A concrete required short-answer question with `min_length = 10`
(cf. `Q13` in `src/src/config/questions.py`). -/
def qTextDemo : Question :=
  { id := "Q13", text := "What makes you different?", type := QuestionType.short_answer,
    validation := { min_length := some 10 } }

/-- Witness for C9 at `qTextDemo` and the whitespace-only answer. -/
theorem C9_whitespace_only_witness :
    (qTextDemo.type = QuestionType.short_answer ∨ qTextDemo.type = QuestionType.paragraph) ∧
    qTextDemo.validation.required = true ∧ " " ≠ "" ∧ pyStrip " " = "" ∧
    (((validate_response qTextDemo (Answer.str " ")).1 = true ↔
        (qTextDemo.validation.min_length = Option.none ∨
         qTextDemo.validation.min_length = some 0)) ∧
     (qTextDemo.type = QuestionType.short_answer →
       validate_response qTextDemo (Answer.str " ") =
         validate_text (Answer.str " ") qTextDemo.validation "short answer") ∧
     (qTextDemo.type = QuestionType.paragraph →
       validate_response qTextDemo (Answer.str " ") =
         validate_text (Answer.str " ") qTextDemo.validation "paragraph")) :=
  ⟨Or.inl rfl, rfl, by decide, by decide,
    C9_whitespace_only qTextDemo " " (Or.inl rfl) rfl (by decide) (by decide)⟩

/-! ### Claim C4 -/

/-- A non-required short-answer question with `min_length = 3`. -/
def qTextOptional : Question :=
  { id := "Qopt", text := "Optional", type := QuestionType.short_answer,
    validation := { required := false, min_length := some 3 } }

/-- C4 as stated fails on the code: for a non-required text question with
`min_length = 3`, the empty string answer is accepted by the vacuous
not-required/empty pass although its trimmed length 0 is below the
minimum, so acceptance is not equivalent to the trimmed length lying in
`[min_length, max_length]`. -/
theorem C4_counterexample :
    qTextOptional.type = QuestionType.short_answer ∧
    qTextOptional.validation.min_length = some 3 ∧
    validate_response qTextOptional (Answer.str "") = (true, Option.none) ∧
    (pyStrip "").length < 3 := by
  refine ⟨rfl, rfl, by decide, by decide⟩

/-- C4 amended (restricted to non-empty string answers, which is what the
empty-answer precedence rules 1–2 of the spec leave to the text rule):
for short-text and long-text questions, `validate_response` accepts a
non-empty string answer iff its trimmed length is within
`[min_length, max_length or ∞]`, and an answer whose trimmed length is
`min_length - 1` rejects with the message carrying both the required
minimum and the observed trimmed length. -/
theorem C4_text_bounds (q : Question) (s : String)
    (hty : q.type = QuestionType.short_answer ∨ q.type = QuestionType.paragraph)
    (hne : s ≠ "") :
    ((validate_response q (Answer.str s)).1 = true ↔
      ((∀ m, q.validation.min_length = some m → m ≤ (pyStrip s).length) ∧
       (∀ m, q.validation.max_length = some m → (pyStrip s).length ≤ m))) ∧
    (∀ m, q.validation.min_length = some m → (pyStrip s).length + 1 = m →
      validate_response q (Answer.str s) =
        (false, some ("Please provide at least " ++ toString m ++
          " characters. Current length: " ++ toString (pyStrip s).length ++
          " characters."))) := by
  have hemp : answerEmpty (Answer.str s) = false := by
    simp [answerEmpty, hne]
  have hdisp : ∀ fname, validate_text (Answer.str s) q.validation fname =
      validate_text (Answer.str s) q.validation "short answer" := by
    intro fname
    simp only [validate_text]
  have hred : validate_response q (Answer.str s) =
      validate_text (Answer.str s) q.validation "short answer" := by
    rcases hty with hty | hty <;>
      simp [validate_response, hemp, hty, hdisp]
  constructor
  · rw [hred]
    rcases hmin : q.validation.min_length with _ | m
    · rcases hmax : q.validation.max_length with _ | mx
      · simp [validate_text, validate_text_max, hmin, hmax]
      · by_cases hgt : (pyStrip s).length > mx <;>
          simp [validate_text, validate_text_max, hmin, hmax, hgt] <;> omega
    · by_cases hlt : (pyStrip s).length < m
      · simp only [validate_text, hmin, hlt, if_true, eq_self_iff_true]
        simp [hmin]
        omega
      · rcases hmax : q.validation.max_length with _ | mx
        · simp [validate_text, validate_text_max, hmin, hmax, hlt]
          omega
        · by_cases hgt : (pyStrip s).length > mx <;>
            simp [validate_text, validate_text_max, hmin, hmax, hlt, hgt] <;> omega
  · intro m hmin hlen
    rw [hred]
    have hlt : (pyStrip s).length < m := by omega
    simp [validate_text, hmin, hlt]

/-- Witness for C4's amended theorem at `qTextDemo` (required,
`min_length = 10`) and a 9-character answer. -/
theorem C4_text_bounds_witness :
    (qTextDemo.type = QuestionType.short_answer ∨
      qTextDemo.type = QuestionType.paragraph) ∧ "ninechars" ≠ "" ∧
    (((validate_response qTextDemo (Answer.str "ninechars")).1 = true ↔
       ((∀ m, qTextDemo.validation.min_length = some m → m ≤ (pyStrip "ninechars").length) ∧
        (∀ m, qTextDemo.validation.max_length = some m → (pyStrip "ninechars").length ≤ m))) ∧
     (∀ m, qTextDemo.validation.min_length = some m → (pyStrip "ninechars").length + 1 = m →
       validate_response qTextDemo (Answer.str "ninechars") =
         (false, some ("Please provide at least " ++ toString m ++
           " characters. Current length: " ++ toString (pyStrip "ninechars").length ++
           " characters.")))) :=
  ⟨Or.inl rfl, by decide, C4_text_bounds qTextDemo "ninechars" (Or.inl rfl) (by decide)⟩

/-! ### Claim C5 -/

/-- The C5 property of a checkboxes question with `required = true`,
`min_selections = 1`, `max_selections = 2`: the empty list rejects with
the required-check message (which fires before the list checks), one and
two valid options accept, any three options reject with the
"at most 2" message (which contains "at most 2"), any list holding an
element outside `options` rejects, and in `_validate_checkboxes` the
min-selections check answers before the max-selections check whenever
both bounds exist and the minimum is violated. -/
def C5Prop (q : Question) : Prop :=
  validate_response q (Answer.list []) =
      (false, some "This question is required. Please provide an answer.") ∧
  (∀ x, x ∈ q.options → validate_response q (Answer.list [x]) = (true, Option.none)) ∧
  (∀ x y, x ∈ q.options → y ∈ q.options →
    validate_response q (Answer.list [x, y]) = (true, Option.none)) ∧
  (∀ x y z, validate_response q (Answer.list [x, y, z]) =
    (false, some "Please select at most 2 option(s).")) ∧
  hasSubstr "at most 2".data "Please select at most 2 option(s).".data = true ∧
  (∀ xs x, x ∈ xs → x ∉ q.options →
    (validate_response q (Answer.list xs)).1 = false) ∧
  (∀ (v : ValidationRule) (xs : List String) (m mx : Nat),
    v.min_selections = some m → v.max_selections = some mx → xs.length < m →
    validate_checkboxes q (Answer.list xs) v =
      (false, some ("Please select at least " ++ toString m ++ " option(s).")))

/-- C5: the checkbox rules at `min_selections = 1`, `max_selections = 2`
on a required question. -/
theorem C5_checkbox_rules (q : Question)
    (hty : q.type = QuestionType.checkboxes)
    (hreq : q.validation.required = true)
    (hmin : q.validation.min_selections = some 1)
    (hmax : q.validation.max_selections = some 2) :
    C5Prop q := by
  have hcb : ∀ xs : List String, xs ≠ [] →
      validate_response q (Answer.list xs) =
        validate_checkboxes q (Answer.list xs) q.validation := by
    intro xs hxs
    have hemp : answerEmpty (Answer.list xs) = false := by
      simp [answerEmpty, hxs]
    simp [validate_response, hemp, hty]
  refine ⟨?_, ?_, ?_, ?_, by decide, ?_, ?_⟩
  · simp [validate_response, hreq, answerEmpty]
  · intro x hx
    rw [hcb [x] (by simp)]
    simp [validate_checkboxes, validate_checkboxes_max, validate_checkboxes_opts,
      hmin, hmax, List.find?_cons, hx]
  · intro x y hx hy
    rw [hcb [x, y] (by simp)]
    simp [validate_checkboxes, validate_checkboxes_max, validate_checkboxes_opts,
      hmin, hmax, List.find?_cons, hx, hy]
  · intro x y z
    rw [hcb [x, y, z] (by simp)]
    simp only [validate_checkboxes, validate_checkboxes_max, hmin, hmax,
      List.length_cons, List.length_nil]
    norm_num
    decide
  · intro xs x hx hnot
    rw [hcb xs (by rintro rfl; exact (List.not_mem_nil x) hx)]
    simp only [validate_checkboxes, hmin]
    by_cases h1 : xs.length < 1
    · simp [h1]
    · simp only [h1, if_false]
      simp only [validate_checkboxes_max, hmax]
      by_cases h2 : xs.length > 2
      · simp [h2]
      · simp only [h2, if_false]
        simp only [validate_checkboxes_opts]
        rcases hf : xs.find? (fun s => decide (s ∉ q.options)) with _ | w
        · exfalso
          have := List.find?_eq_none.1 hf x hx
          simp [hnot] at this
        · simp
  · intro v xs m mx hm hmx hlen
    simp [validate_checkboxes, hm, hlen]

/-- A concrete checkboxes question mirroring `Q2` in
`src/src/config/questions.py`. -/
def qCheckDemo : Question :=
  { id := "Q2", text := "Story arc?", type := QuestionType.checkboxes,
    options := ["Rags to Riches", "Comedy", "Rebirth"],
    validation := { min_selections := some 1, max_selections := some 2 } }

/-- Witness for C5 at the concrete checkboxes question. -/
theorem C5_checkbox_rules_witness :
    qCheckDemo.type = QuestionType.checkboxes ∧
    qCheckDemo.validation.required = true ∧
    qCheckDemo.validation.min_selections = some 1 ∧
    qCheckDemo.validation.max_selections = some 2 ∧
    C5Prop qCheckDemo :=
  ⟨rfl, rfl, rfl, rfl, C5_checkbox_rules qCheckDemo rfl rfl rfl rfl⟩

/-! ### Claims C2 and C10: batch upload -/

/-- The per-file loop visits every file: its outputs are the
per-file-wise `filterMap`s, in input order. -/
theorem batch_loop_eq (env : R2Env) (folder : String) (rules : BatchRules) :
    ∀ files : List UFile,
      batch_loop env files folder rules =
        (files.filterMap (perFileUploaded env folder rules),
         files.filterMap (perFileError env folder rules)) := by
  intro files
  induction files with
  | nil => rfl
  | cons f rest ih =>
      simp only [batch_loop, ih, List.filterMap_cons]
      rcases hv : validate_file_upload env f.size f.name rules.allowed_types
          rules.max_file_size_mb with _ | e
      · rcases hu : upload_file env f.name folder with e | k <;>
          simp [perFileUploaded, perFileError, hv, hu]
      · simp [perFileUploaded, perFileError, hv]

/-- The three pre-checks of `batch_upload_files` pass. -/
def batchPrechecksPass (files : List UFile) (rules : BatchRules) : Prop :=
  rules.min_files ≤ files.length ∧
  Option.all (fun mx => decide (files.length ≤ mx)) rules.max_files = true ∧
  (files.map (fun f => f.size)).sum ≤ rules.max_total_size_mb * 1024 * 1024

/-- When the pre-checks pass, `batch_upload_files` is exactly the
per-file loop. -/
theorem batch_upload_files_eq (env : R2Env) (files : List UFile) (folder : String)
    (rules : BatchRules) (hpre : batchPrechecksPass files rules) :
    batch_upload_files env files folder rules =
      (files.filterMap (perFileUploaded env folder rules),
       files.filterMap (perFileError env folder rules)) := by
  obtain ⟨h1, h2, h3⟩ := hpre
  have h1' : ¬ files.length < rules.min_files := by omega
  have h3' : ¬ (files.map (fun f => f.size)).sum > rules.max_total_size_mb * 1024 * 1024 := by
    omega
  rw [← batch_loop_eq]
  simp only [batch_upload_files, h1', if_false]
  rcases hmx : rules.max_files with _ | mx
  · simp [batch_total, h3']
  · have h2' : ¬ files.length > mx := by
      rw [hmx] at h2
      simp [Option.all] at h2
      omega
    simp [h2', batch_total, h3']

/-- The per-file size message differs from the unknown-type message
(their first characters differ). -/
theorem msg_size_ne_could (n1 sz n2 : String) :
    ("File '" ++ n1 ++ "' exceeds " ++ sz ++ "MB limit.") ≠
      ("Could not determine file type for '" ++ n2 ++ "'.") := by
  apply string_ne_of_data_get _ _ 0
  simp only [String.data_append, List.append_assoc]
  intro he
  have hc : (some 'F' : Option Char) = some 'C' := he
  simp at hc

/-- The per-file size message differs from the disallowed-type message
(their sixth characters differ). -/
theorem msg_size_ne_type (n1 sz mime rest : String) :
    ("File '" ++ n1 ++ "' exceeds " ++ sz ++ "MB limit.") ≠
      ("File type '" ++ mime ++ "' not allowed. Allowed types: " ++ rest) := by
  apply string_ne_of_data_get _ _ 5
  simp only [String.data_append, List.append_assoc]
  intro he
  have hc : (some '\'' : Option Char) = some 't' := he
  simp at hc

/-- A demo storage environment: a small extension-based MIME table, all
network uploads succeeding, a fixed timestamp. -/
def envDemo : R2Env :=
  { guess_type := fun n =>
      if String.endsWith n ".jpg" then some "image/jpeg"
      else if String.endsWith n ".png" then some "image/png"
      else Option.none,
    upload_outcome := fun _ => Option.none,
    timestamp := "20240101_000000_000000",
    bucket_id := "demo" }

/-- Demo batch rules requiring at least 2 files. -/
def rulesDemo : BatchRules :=
  { allowed_types := ["image/jpeg", "image/png"], max_file_size_mb := 20,
    max_total_size_mb := 200, min_files := 2, max_files := some 15 }

/-- C2 as stated fails on the code: a one-file batch whose single file is
oversized has two distinct failure causes (the file count is below the
2-file minimum, and the file exceeds the 20MB per-file cap), yet
`batch_upload_files` returns exactly one error string — the count
pre-check returns immediately and the per-file check never runs. -/
theorem C2_counterexample :
    (UFile.mk "big.jpg" (25 * 1024 * 1024)).size >
      rulesDemo.max_file_size_mb * 1024 * 1024 ∧
    [UFile.mk "big.jpg" (25 * 1024 * 1024)].length < rulesDemo.min_files ∧
    (batch_upload_files envDemo [UFile.mk "big.jpg" (25 * 1024 * 1024)]
        "sess" rulesDemo).2 =
      ["Please upload at least 2 file(s). Currently: 1 file(s)."] := by
  refine ⟨by decide, by decide, by decide⟩

/-- C2 amended (the count and total-size pre-checks each abort the batch
immediately with a single error; the no-short-circuit guarantee is the
per-file phase's): for a batch that passes the pre-checks,
`batch_upload_files` checks every file and collects one error per failing
file in order (no short-circuit on the first bad file), so a pre-check-
passing batch holding a file over the per-file size cap and another file
with a missing or disallowed MIME type yields at least two distinct
error strings, one per distinct failure cause. -/
theorem C2_batch_accumulates (env : R2Env) (files : List UFile) (folder : String)
    (rules : BatchRules) (hpre : batchPrechecksPass files rules) :
    batch_upload_files env files folder rules =
      (files.filterMap (perFileUploaded env folder rules),
       files.filterMap (perFileError env folder rules)) ∧
    (∀ f1 f2, f1 ∈ files → f2 ∈ files →
      rules.max_file_size_mb * 1024 * 1024 < f1.size →
      f2.size ≤ rules.max_file_size_mb * 1024 * 1024 →
      (env.guess_type f2.name = Option.none ∨
        (∃ mime, env.guess_type f2.name = some mime ∧ mime ∉ rules.allowed_types)) →
      ∃ e1 e2, e1 ∈ (batch_upload_files env files folder rules).2 ∧
        e2 ∈ (batch_upload_files env files folder rules).2 ∧ e1 ≠ e2) := by
  have heq := batch_upload_files_eq env files folder rules hpre
  refine ⟨heq, ?_⟩
  intro f1 f2 h1 h2 hsz1 hsz2 hmime
  have hsz2' : ¬ f2.size > rules.max_file_size_mb * 1024 * 1024 := by omega
  have he1 : perFileError env folder rules f1 =
      some ("File '" ++ f1.name ++ "' exceeds " ++
        toString rules.max_file_size_mb ++ "MB limit.") := by
    simp [perFileError, validate_file_upload, hsz1]
  have hmem1 : ("File '" ++ f1.name ++ "' exceeds " ++
      toString rules.max_file_size_mb ++ "MB limit.") ∈
        (batch_upload_files env files folder rules).2 := by
    rw [heq]
    exact List.mem_filterMap.2 ⟨f1, h1, he1⟩
  rcases hmime with hg | ⟨mime, hg, hna⟩
  · have he2 : perFileError env folder rules f2 =
        some ("Could not determine file type for '" ++ f2.name ++ "'.") := by
      simp [perFileError, validate_file_upload, hsz2', hg]
    have hmem2 : ("Could not determine file type for '" ++ f2.name ++ "'.") ∈
        (batch_upload_files env files folder rules).2 := by
      rw [heq]
      exact List.mem_filterMap.2 ⟨f2, h2, he2⟩
    exact ⟨_, _, hmem1, hmem2, msg_size_ne_could _ _ _⟩
  · have he2 : perFileError env folder rules f2 =
        some ("File type '" ++ mime ++ "' not allowed. Allowed types: " ++
          String.intercalate ", " rules.allowed_types) := by
      simp [perFileError, validate_file_upload, hsz2', hg, hna]
    have hmem2 : ("File type '" ++ mime ++ "' not allowed. Allowed types: " ++
        String.intercalate ", " rules.allowed_types) ∈
        (batch_upload_files env files folder rules).2 := by
      rw [heq]
      exact List.mem_filterMap.2 ⟨f2, h2, he2⟩
    exact ⟨_, _, hmem1, hmem2, msg_size_ne_type _ _ _ _⟩

/-- Witness for C2's amended theorem: a three-file batch (oversized jpg,
unknown-extension file, valid jpg) passing the pre-checks. -/
theorem C2_batch_accumulates_witness :
    batchPrechecksPass
      [UFile.mk "big.jpg" (25 * 1024 * 1024), UFile.mk "bad.xyz" 10,
       UFile.mk "ok.jpg" 10]
      { rulesDemo with min_files := 1 } ∧
    (batch_upload_files envDemo
      [UFile.mk "big.jpg" (25 * 1024 * 1024), UFile.mk "bad.xyz" 10,
       UFile.mk "ok.jpg" 10] "sess" { rulesDemo with min_files := 1 } =
      ([UFile.mk "big.jpg" (25 * 1024 * 1024), UFile.mk "bad.xyz" 10,
        UFile.mk "ok.jpg" 10].filterMap
        (perFileUploaded envDemo "sess" { rulesDemo with min_files := 1 }),
       [UFile.mk "big.jpg" (25 * 1024 * 1024), UFile.mk "bad.xyz" 10,
        UFile.mk "ok.jpg" 10].filterMap
        (perFileError envDemo "sess" { rulesDemo with min_files := 1 })) ∧
     (∀ f1 f2,
       f1 ∈ [UFile.mk "big.jpg" (25 * 1024 * 1024), UFile.mk "bad.xyz" 10,
             UFile.mk "ok.jpg" 10] →
       f2 ∈ [UFile.mk "big.jpg" (25 * 1024 * 1024), UFile.mk "bad.xyz" 10,
             UFile.mk "ok.jpg" 10] →
       ({ rulesDemo with min_files := 1 } : BatchRules).max_file_size_mb * 1024 * 1024 <
         f1.size →
       f2.size ≤ ({ rulesDemo with min_files := 1 } : BatchRules).max_file_size_mb *
         1024 * 1024 →
       (envDemo.guess_type f2.name = Option.none ∨
         (∃ mime, envDemo.guess_type f2.name = some mime ∧
           mime ∉ ({ rulesDemo with min_files := 1 } : BatchRules).allowed_types)) →
       ∃ e1 e2,
         e1 ∈ (batch_upload_files envDemo
           [UFile.mk "big.jpg" (25 * 1024 * 1024), UFile.mk "bad.xyz" 10,
            UFile.mk "ok.jpg" 10] "sess" { rulesDemo with min_files := 1 }).2 ∧
         e2 ∈ (batch_upload_files envDemo
           [UFile.mk "big.jpg" (25 * 1024 * 1024), UFile.mk "bad.xyz" 10,
            UFile.mk "ok.jpg" 10] "sess" { rulesDemo with min_files := 1 }).2 ∧
         e1 ≠ e2)) :=
  ⟨by unfold batchPrechecksPass; decide,
   C2_batch_accumulates envDemo
     [UFile.mk "big.jpg" (25 * 1024 * 1024), UFile.mk "bad.xyz" 10,
      UFile.mk "ok.jpg" 10] "sess" { rulesDemo with min_files := 1 }
     (by unfold batchPrechecksPass; decide)⟩

/-- C10: for a batch passing the count and total-size pre-checks, the
uploaded list is exactly the per-file loop's successes — every file that
individually passes validation (and whose network upload succeeds) is
uploaded even when other files in the batch fail — so a batch holding
both a passing and a failing file returns a non-empty uploaded list next
to a non-empty error list. -/
theorem C10_uploads_despite_errors (env : R2Env) (files : List UFile) (folder : String)
    (rules : BatchRules) (hpre : batchPrechecksPass files rules) :
    (batch_upload_files env files folder rules).1 =
      files.filterMap (perFileUploaded env folder rules) ∧
    (∀ f u, f ∈ files → perFileUploaded env folder rules f = some u →
      u ∈ (batch_upload_files env files folder rules).1) ∧
    (∀ f1 f2 u e, f1 ∈ files → f2 ∈ files →
      perFileUploaded env folder rules f1 = some u →
      perFileError env folder rules f2 = some e →
      (batch_upload_files env files folder rules).1 ≠ [] ∧
      (batch_upload_files env files folder rules).2 ≠ []) := by
  have heq := batch_upload_files_eq env files folder rules hpre
  have hup : ∀ f u, f ∈ files → perFileUploaded env folder rules f = some u →
      u ∈ (batch_upload_files env files folder rules).1 := by
    intro f u hf hfu
    rw [heq]
    exact List.mem_filterMap.2 ⟨f, hf, hfu⟩
  refine ⟨by rw [heq], hup, ?_⟩
  intro f1 f2 u e h1 h2 hu he
  constructor
  · exact List.ne_nil_of_mem (hup f1 u h1 hu)
  · have : e ∈ (batch_upload_files env files folder rules).2 := by
      rw [heq]
      exact List.mem_filterMap.2 ⟨f2, h2, he⟩
    exact List.ne_nil_of_mem this

/-- Witness for C10 at a two-file batch: one passing jpg, one oversized
jpg. -/
theorem C10_uploads_despite_errors_witness :
    batchPrechecksPass
      [UFile.mk "ok.jpg" 10, UFile.mk "big.jpg" (25 * 1024 * 1024)]
      { rulesDemo with min_files := 1 } ∧
    ((batch_upload_files envDemo
        [UFile.mk "ok.jpg" 10, UFile.mk "big.jpg" (25 * 1024 * 1024)] "sess"
        { rulesDemo with min_files := 1 }).1 =
      [UFile.mk "ok.jpg" 10, UFile.mk "big.jpg" (25 * 1024 * 1024)].filterMap
        (perFileUploaded envDemo "sess" { rulesDemo with min_files := 1 }) ∧
     (∀ f u,
       f ∈ [UFile.mk "ok.jpg" 10, UFile.mk "big.jpg" (25 * 1024 * 1024)] →
       perFileUploaded envDemo "sess" { rulesDemo with min_files := 1 } f = some u →
       u ∈ (batch_upload_files envDemo
         [UFile.mk "ok.jpg" 10, UFile.mk "big.jpg" (25 * 1024 * 1024)] "sess"
         { rulesDemo with min_files := 1 }).1) ∧
     (∀ f1 f2 u e,
       f1 ∈ [UFile.mk "ok.jpg" 10, UFile.mk "big.jpg" (25 * 1024 * 1024)] →
       f2 ∈ [UFile.mk "ok.jpg" 10, UFile.mk "big.jpg" (25 * 1024 * 1024)] →
       perFileUploaded envDemo "sess" { rulesDemo with min_files := 1 } f1 = some u →
       perFileError envDemo "sess" { rulesDemo with min_files := 1 } f2 = some e →
       (batch_upload_files envDemo
         [UFile.mk "ok.jpg" 10, UFile.mk "big.jpg" (25 * 1024 * 1024)] "sess"
         { rulesDemo with min_files := 1 }).1 ≠ [] ∧
       (batch_upload_files envDemo
         [UFile.mk "ok.jpg" 10, UFile.mk "big.jpg" (25 * 1024 * 1024)] "sess"
         { rulesDemo with min_files := 1 }).2 ≠ [])) :=
  ⟨by unfold batchPrechecksPass; decide,
   C10_uploads_despite_errors envDemo
     [UFile.mk "ok.jpg" 10, UFile.mk "big.jpg" (25 * 1024 * 1024)] "sess"
     { rulesDemo with min_files := 1 } (by unfold batchPrechecksPass; decide)⟩

/-! ### Claim C6: the email regex -/

/-- Local-part characters are not `@`. -/
theorem isLocalChar_ne_at {c : Char} (h : isLocalChar c = true) : c ≠ '@' := by
  rintro rfl
  exact absurd h (by decide)

/-- Domain characters are not `@`. -/
theorem isDomainChar_ne_at {c : Char} (h : isDomainChar c = true) : c ≠ '@' := by
  rintro rfl
  exact absurd h (by decide)

/-- Top-level-label characters are not `@`. -/
theorem isTldChar_ne_at {c : Char} (h : isTldChar c = true) : c ≠ '@' := by
  rintro rfl
  exact absurd h (by decide)

/-- Top-level-label characters are not `.`. -/
theorem isTldChar_ne_dot {c : Char} (h : isTldChar c = true) : c ≠ '.' := by
  rintro rfl
  exact absurd h (by decide)

/-- Soundness of `domainMatch`: an accepted list decomposes as
`domain ++ "." ++ tld` with the regex's class and length constraints. -/
theorem domainMatch_spec {t : List Char} (h : domainMatch t = true) :
    ∃ d tld : List Char, t = d ++ '.' :: tld ∧ d ≠ [] ∧ d.all isDomainChar = true ∧
      2 ≤ tld.length ∧ tld.all isTldChar = true := by
  unfold domainMatch at h
  rcases hdw : t.reverse.dropWhile (fun c => decide (c ≠ '.')) with _ | ⟨x, dRev⟩
  · rw [hdw] at h
    simp at h
  · rw [hdw] at h
    simp only [Bool.and_eq_true, decide_eq_true_eq] at h
    obtain ⟨⟨⟨hlen, htall⟩, hdne⟩, hdall⟩ := h
    have hx : x = '.' := by
      have := dropWhile_head_not hdw
      simpa using this
    subst hx
    refine ⟨dRev.reverse, (t.reverse.takeWhile (fun c => decide (c ≠ '.'))).reverse,
      ?_, ?_, ?_, ?_, ?_⟩
    · have hsplit : t.reverse.takeWhile (fun c => decide (c ≠ '.')) ++
          ('.' :: dRev) = t.reverse := by
        rw [← hdw]
        exact List.takeWhile_append_dropWhile _ _
      calc t = t.reverse.reverse := (List.reverse_reverse t).symm
        _ = (t.reverse.takeWhile (fun c => decide (c ≠ '.')) ++ ('.' :: dRev)).reverse := by
              rw [hsplit]
        _ = dRev.reverse ++ '.' ::
              (t.reverse.takeWhile (fun c => decide (c ≠ '.'))).reverse := by
              simp
    · simpa using hdne
    · simpa using hdall
    · simpa using hlen
    · simpa using htall

/-- Completeness of `domainMatch` for the regex's decompositions. -/
theorem domainMatch_of_spec {d tld : List Char} (hdne : d ≠ [])
    (hdall : d.all isDomainChar = true) (hlen : 2 ≤ tld.length)
    (htall : tld.all isTldChar = true) :
    domainMatch (d ++ '.' :: tld) = true := by
  have hrev : (d ++ '.' :: tld).reverse = tld.reverse ++ '.' :: d.reverse := by
    simp
  have htld : ∀ x ∈ tld.reverse, (fun c => decide (c ≠ '.')) x = true := by
    intro x hx
    have : isTldChar x = true :=
      List.all_eq_true.1 htall x (List.mem_reverse.1 hx)
    simpa using isTldChar_ne_dot this
  have hsplit := takeWhile_dropWhile_append (fun c => decide (c ≠ '.'))
    tld.reverse ('.' :: d.reverse) htld
  unfold domainMatch
  rw [hrev, hsplit.2, hsplit.1]
  have hdot : List.dropWhile (fun c => decide (c ≠ '.')) ('.' :: d.reverse) =
      '.' :: d.reverse := by
    rw [List.dropWhile_cons]
    simp
  have hdot2 : List.takeWhile (fun c => decide (c ≠ '.')) ('.' :: d.reverse) = [] := by
    rw [List.takeWhile_cons]
    simp
  rw [hdot, hdot2, List.append_nil]
  simp only [Bool.and_eq_true, decide_eq_true_eq]
  refine ⟨⟨⟨?_, ?_⟩, ?_⟩, ?_⟩
  · simpa using hlen
  · simpa using htall
  · simpa using hdne
  · simpa using hdall

/-- The executable matcher `emailMatch` recognizes exactly the language
of the source's email regex as the specification words it. -/
theorem emailMatch_iff_spec (cs : List Char) :
    emailMatch cs = true ↔ emailSpecLang cs := by
  constructor
  · intro h
    unfold emailMatch at h
    rcases hdw : cs.dropWhile (fun c => decide (c ≠ '@')) with _ | ⟨a, t⟩
    · rw [hdw] at h
      simp at h
    · rw [hdw] at h
      simp only [Bool.and_eq_true, decide_eq_true_eq] at h
      obtain ⟨⟨hlne, hlall⟩, hdom⟩ := h
      have ha : a = '@' := by
        have := dropWhile_head_not hdw
        simpa using this
      subst ha
      obtain ⟨d, tld, ht, hdne, hdall, hlen, htall⟩ := domainMatch_spec hdom
      refine ⟨cs.takeWhile (fun c => decide (c ≠ '@')), d, tld, ?_, hlne, hlall,
        hdne, hdall, hlen, htall⟩
      rw [← ht, ← hdw]
      exact (List.takeWhile_append_dropWhile _ _).symm
  · rintro ⟨l, d, tld, rfl, hlne, hlall, hdne, hdall, hlen, htall⟩
    have hl : ∀ x ∈ l, (fun c => decide (c ≠ '@')) x = true := by
      intro x hx
      have : isLocalChar x = true := List.all_eq_true.1 hlall x hx
      simpa using isLocalChar_ne_at this
    have hsplit := takeWhile_dropWhile_append (fun c => decide (c ≠ '@'))
      l ('@' :: (d ++ '.' :: tld)) hl
    unfold emailMatch
    rw [hsplit.2, hsplit.1]
    have hat : List.dropWhile (fun c => decide (c ≠ '@')) ('@' :: (d ++ '.' :: tld)) =
        '@' :: (d ++ '.' :: tld) := by
      rw [List.dropWhile_cons]
      simp
    have hat2 : List.takeWhile (fun c => decide (c ≠ '@')) ('@' :: (d ++ '.' :: tld)) =
        [] := by
      rw [List.takeWhile_cons]
      simp
    rw [hat, hat2, List.append_nil]
    simp only [Bool.and_eq_true, decide_eq_true_eq]
    exact ⟨⟨hlne, hlall⟩, domainMatch_of_spec hdne hdall hlen htall⟩

/-- C6: `validate_email` accepts `"user@example.com"` and `"a@b.co"`,
rejects `""`, `None`, `"no-at-sign"`, `"two@@at.com"` and
`"trailing@dot."`, and in general accepts a string exactly when its
trimmed value lies in the language the specification describes:
`local-part@domain.tld` with local part over `[A-Za-z0-9._%+-]`
(nonempty), domain over `[A-Za-z0-9.-]` (nonempty), and an alphabetic
top-level label of length at least two. -/
theorem C6_validate_email :
    (validate_email (some "user@example.com")).1 = true ∧
    (validate_email (some "a@b.co")).1 = true ∧
    (validate_email (some "")).1 = false ∧
    (validate_email Option.none).1 = false ∧
    (validate_email (some "no-at-sign")).1 = false ∧
    (validate_email (some "two@@at.com")).1 = false ∧
    (validate_email (some "trailing@dot.")).1 = false ∧
    (∀ s : String, (validate_email (some s)).1 = true ↔
      emailSpecLang (pyStrip s).data) := by
  refine ⟨by decide, by decide, by decide, by decide, by decide, by decide, by decide, ?_⟩
  intro s
  by_cases hs : s = ""
  · subst hs
    constructor
    · intro h
      exact absurd h (by decide)
    · rintro ⟨l, d, t, heq, hlne, -⟩
      have hnil : (pyStrip "").data = [] := by decide
      rw [hnil] at heq
      rcases l with _ | ⟨c, l⟩
      · simp at heq
      · simp at heq
  · have hred : (validate_email (some s)).1 = emailMatch (pyStrip s).data := by
      simp [validate_email, hs]
      by_cases hm : emailMatch (pyStrip s).data = true <;> simp [hm]
    rw [hred]
    exact emailMatch_iff_spec (pyStrip s).data

/-! ### Claim C8: export serialization -/

/-- A successful `exportResponses` run pairs each stored response, in
order, with the export record resolved from its catalog question. -/
theorem exportResponses_forall₂ :
    ∀ (rs : List (String × Response)) (m : List (String × Question))
      (es : List ExportResponse), exportResponses rs m = some es →
      List.Forall₂ (fun (p : String × Response) (e : ExportResponse) =>
        ∃ q, List.lookup p.1 m = some q ∧ e = mkExportResponse p.2 q) rs es := by
  intro rs
  induction rs with
  | nil =>
      intro m es h
      simp only [exportResponses, Option.some.injEq] at h
      subst h
      exact List.Forall₂.nil
  | cons p rest ih =>
      intro m es h
      obtain ⟨qid, r⟩ := p
      simp only [exportResponses] at h
      rcases hq : List.lookup qid m with _ | q
      · rw [hq] at h
        simp at h
      · rw [hq] at h
        rcases hrest : exportResponses rest m with _ | es'
        · rw [hrest] at h
          simp at h
        · rw [hrest] at h
          simp only [Option.some.injEq] at h
          subst h
          exact List.Forall₂.cons ⟨q, hq, rfl⟩ (ih m es' hrest)

/-- C8: a produced export document resolves every stored response's
`question_id` against the catalog map, attaching that question's prompt
text as `question_text` and its modality string as `question_type`;
`submission_metadata.completion_time_minutes` is
`(completed_at - started_at)` in minutes; and the other metadata fields
are copied from the session.  (`FormSession.to_dict` takes no clock
argument: the serializer is a pure function of the session and the
catalog map, so it is deterministic and performs no "now" call.) -/
theorem C8_export_resolution (s : FormSession) (m : List (String × Question))
    (doc : ExportDoc) (h : s.to_dict m = some doc) :
    List.Forall₂ (fun (p : String × Response) (e : ExportResponse) =>
      ∃ q, List.lookup p.1 m = some q ∧ e.question_text = q.text ∧
        e.question_type = q.type.value ∧ e = mkExportResponse p.2 q)
      s.all_responses doc.responses ∧
    doc.responses.length = s.all_responses.length ∧
    (∀ c, s.completed_at = some c →
      doc.submission_metadata.completion_time_minutes = some ((c - s.started_at) / 60)) ∧
    doc.submission_metadata.user_email = s.user_email ∧
    doc.submission_metadata.submitted_at = s.completed_at ∧
    doc.submission_metadata.started_at = s.started_at ∧
    doc.submission_metadata.session_id = s.session_id := by
  unfold FormSession.to_dict at h
  rcases hes : exportResponses s.all_responses m with _ | es
  · rw [hes] at h
    simp at h
  · rw [hes] at h
    simp only [Option.map_some', Option.some.injEq] at h
    subst h
    have hf := exportResponses_forall₂ s.all_responses m es hes
    refine ⟨?_, ?_, ?_, rfl, rfl, rfl, rfl⟩
    · exact hf.imp (fun {p e} hpe => by
        obtain ⟨q, hq, he⟩ := hpe
        exact ⟨q, hq, by rw [he]; rfl, by rw [he]; rfl, he⟩)
    · exact hf.length_eq.symm
    · intro c hc
      simp [FormSession.completion_time_minutes, hc]

/-- A demo completed session with two committed responses. -/
def sessionDemo : FormSession :=
  { session_id := "sess-1", started_at := 0, completed_at := some 300,
    completion_status := true, user_email := some "user@example.com",
    r2_folder_path := "sess-1/20240101_000000",
    all_responses :=
      [("Q1", { question_id := "Q1", answer_value := Answer.str "A",
                timestamp := 60, validation_status := true }),
       ("Q2", { question_id := "Q2", answer_value := Answer.list ["Comedy"],
                timestamp := 120, validation_status := true })] }

/-- The demo catalog map for `sessionDemo`. -/
def mapDemo : List (String × Question) :=
  [("Q1", qReqDemo), ("Q2", qCheckDemo)]

/-- The document `sessionDemo` exports to. -/
def docDemo : ExportDoc :=
  { questionnaire_version := "1.0.0",
    submission_metadata :=
      { session_id := "sess-1", submitted_at := some 300,
        user_email := some "user@example.com",
        completion_time_minutes := some 5, started_at := 0 },
    responses :=
      [mkExportResponse { question_id := "Q1", answer_value := Answer.str "A",
                          timestamp := 60, validation_status := true } qReqDemo,
       mkExportResponse { question_id := "Q2", answer_value := Answer.list ["Comedy"],
                          timestamp := 120, validation_status := true } qCheckDemo],
    r2_storage := { bucket_name := "creative-direction-decks",
                    session_folder := "sess-1/20240101_000000" } }

/-- The demo session exports to the demo document. -/
theorem sessionDemo_to_dict : sessionDemo.to_dict mapDemo = some docDemo := by
  have hmin : sessionDemo.completion_time_minutes = some 5 := by
    unfold sessionDemo FormSession.completion_time_minutes
    norm_num
  unfold FormSession.to_dict
  simp only [hmin]
  rfl

/-- Witness for C8 at the demo session. -/
theorem C8_export_resolution_witness :
    sessionDemo.to_dict mapDemo = some docDemo ∧
    (List.Forall₂ (fun (p : String × Response) (e : ExportResponse) =>
      ∃ q, List.lookup p.1 mapDemo = some q ∧ e.question_text = q.text ∧
        e.question_type = q.type.value ∧ e = mkExportResponse p.2 q)
      sessionDemo.all_responses docDemo.responses ∧
    docDemo.responses.length = sessionDemo.all_responses.length ∧
    (∀ c, sessionDemo.completed_at = some c →
      docDemo.submission_metadata.completion_time_minutes =
        some ((c - sessionDemo.started_at) / 60)) ∧
    docDemo.submission_metadata.user_email = sessionDemo.user_email ∧
    docDemo.submission_metadata.submitted_at = sessionDemo.completed_at ∧
    docDemo.submission_metadata.started_at = sessionDemo.started_at ∧
    docDemo.submission_metadata.session_id = sessionDemo.session_id) :=
  ⟨sessionDemo_to_dict, C8_export_resolution sessionDemo mapDemo docDemo sessionDemo_to_dict⟩

/-! ### Claim C3: the email step -/

/-- C3: at the email step (cursor = N = catalog length), a rejected email
leaves the state unchanged except for surfacing the rejection reason
(cursor still N, session still incomplete); an accepted email completes
the session with that email, stores the export document (whose
`user_email` is that email) and moves the cursor to N + 1; and the
email-delivery outcome has no effect on any of this (the whole delivery
attempt is inside `try`/`except`). -/
theorem C3_email_step (catalog : List Question) (st : AppState)
    (hN : st.current_question_index = (catalog.length : Int))
    (hnc : st.form_session.completion_status = false) :
    (∀ email d now, (validate_email (some email)).1 = false →
      submit_questionnaire (questionsMap catalog) email d now st =
        some { st with validation_error := (validate_email (some email)).2 }) ∧
    (∀ email d now st', (validate_email (some email)).1 = false →
      submit_questionnaire (questionsMap catalog) email d now st = some st' →
      st'.current_question_index = (catalog.length : Int) ∧
      st'.form_session.completion_status = false ∧
      st'.form_session = st.form_session ∧
      st'.validation_error = (validate_email (some email)).2) ∧
    (∀ email d now doc st', (validate_email (some email)).1 = true →
      (st.form_session.mark_complete email now).to_dict (questionsMap catalog) =
        some doc →
      submit_questionnaire (questionsMap catalog) email d now st = some st' →
      st'.current_question_index = (catalog.length : Int) + 1 ∧
      st'.form_session.completion_status = true ∧
      st'.form_session.user_email = some email ∧
      st'.form_session.completed_at = some now ∧
      st'.completion_json = some doc ∧
      doc.submission_metadata.user_email = some email) ∧
    (∀ email now, submit_questionnaire (questionsMap catalog) email true now st =
      submit_questionnaire (questionsMap catalog) email false now st) := by
  have hrej : ∀ email d now, (validate_email (some email)).1 = false →
      submit_questionnaire (questionsMap catalog) email d now st =
        some { st with validation_error := (validate_email (some email)).2 } := by
    intro email d now hv
    simp [submit_questionnaire, hv]
  refine ⟨hrej, ?_, ?_, ?_⟩
  · intro email d now st' hv hsub
    rw [hrej email d now hv] at hsub
    obtain rfl : _ = st' := Option.some.inj hsub
    exact ⟨hN, hnc, rfl, rfl⟩
  · intro email d now doc st' hv hdoc hsub
    simp only [submit_questionnaire, hv, if_true, hdoc] at hsub
    obtain rfl : _ = st' := Option.some.inj hsub
    refine ⟨by rw [hN], rfl, rfl, rfl, rfl, ?_⟩
    unfold FormSession.to_dict at hdoc
    rcases hes : exportResponses (st.form_session.mark_complete email now).all_responses
        (questionsMap catalog) with _ | es
    · rw [hes] at hdoc
      simp at hdoc
    · rw [hes] at hdoc
      simp only [Option.map_some', Option.some.injEq] at hdoc
      rw [← hdoc]
      rfl
  · intro email now
    rfl

/-- The demo app state at the email step of a one-question catalog. -/
def stEmailDemo : AppState :=
  { current_question_index := 1,
    validation_error := Option.none,
    form_session :=
      { session_id := "sess-1", started_at := 0,
        r2_folder_path := "sess-1/20240101_000000",
        all_responses :=
          [("Q1", { question_id := "Q1", answer_value := Answer.str "A",
                    timestamp := 60, validation_status := true })] } }

/-- The document the demo state exports on completion at time 300 with
the demo email. -/
def docEmailDemo : ExportDoc :=
  { questionnaire_version := "1.0.0",
    submission_metadata :=
      { session_id := "sess-1", submitted_at := some 300,
        user_email := some "user@example.com",
        completion_time_minutes := some 5, started_at := 0 },
    responses :=
      [mkExportResponse { question_id := "Q1", answer_value := Answer.str "A",
                          timestamp := 60, validation_status := true } qReqDemo],
    r2_storage := { bucket_name := "creative-direction-decks",
                    session_folder := "sess-1/20240101_000000" } }

/-- The completed demo session serializes to the demo document. -/
theorem stEmailDemo_to_dict :
    (stEmailDemo.form_session.mark_complete "user@example.com" 300).to_dict
      (questionsMap [qReqDemo]) = some docEmailDemo := by
  have hmin : (stEmailDemo.form_session.mark_complete "user@example.com"
      300).completion_time_minutes = some 5 := by
    unfold stEmailDemo FormSession.mark_complete FormSession.completion_time_minutes
    norm_num
  unfold FormSession.to_dict
  simp only [hmin]
  rfl

/-- Witness for C3 at the demo one-question catalog and email-step
state. -/
theorem C3_email_step_witness :
    stEmailDemo.current_question_index = (([qReqDemo] : List Question).length : Int) ∧
    stEmailDemo.form_session.completion_status = false ∧
    ((∀ email d now, (validate_email (some email)).1 = false →
      submit_questionnaire (questionsMap [qReqDemo]) email d now stEmailDemo =
        some { stEmailDemo with validation_error := (validate_email (some email)).2 }) ∧
    (∀ email d now st', (validate_email (some email)).1 = false →
      submit_questionnaire (questionsMap [qReqDemo]) email d now stEmailDemo = some st' →
      st'.current_question_index = (([qReqDemo] : List Question).length : Int) ∧
      st'.form_session.completion_status = false ∧
      st'.form_session = stEmailDemo.form_session ∧
      st'.validation_error = (validate_email (some email)).2) ∧
    (∀ email d now doc st', (validate_email (some email)).1 = true →
      (stEmailDemo.form_session.mark_complete email now).to_dict
        (questionsMap [qReqDemo]) = some doc →
      submit_questionnaire (questionsMap [qReqDemo]) email d now stEmailDemo = some st' →
      st'.current_question_index = (([qReqDemo] : List Question).length : Int) + 1 ∧
      st'.form_session.completion_status = true ∧
      st'.form_session.user_email = some email ∧
      st'.form_session.completed_at = some now ∧
      st'.completion_json = some doc ∧
      doc.submission_metadata.user_email = some email) ∧
    (∀ email now,
      submit_questionnaire (questionsMap [qReqDemo]) email true now stEmailDemo =
      submit_questionnaire (questionsMap [qReqDemo]) email false now stEmailDemo)) :=
  ⟨rfl, rfl, C3_email_step [qReqDemo] stEmailDemo rfl rfl⟩

/-! ### Claim C7: cursor invariants -/

/-- The C7 property of the three cursor-mutating handlers at one state
and one set of inputs: back navigation at cursor 0 is a no-op, cursor
nonnegativity is preserved by every handler, back navigation changes the
cursor only by −1 and only from a positive cursor, an advance changes it
only by +1 and only when validation succeeded (the validation error is
cleared), and a submit changes it only by +1 and only on completion
(otherwise state and session are untouched apart from the surfaced
error). -/
def C7Prop (catalog : List Question) (a : Answer)
    (fo : Bool × List FileReference × Option String) (now : ℚ)
    (m : List (String × Question)) (email : String) (d : Bool) (st : AppState) : Prop :=
  (st.current_question_index = 0 →
    (go_back_to_previous_question st).current_question_index = 0) ∧
  (0 ≤ (go_back_to_previous_question st).current_question_index) ∧
  ((go_back_to_previous_question st).current_question_index =
      st.current_question_index ∨
    (0 < st.current_question_index ∧
      (go_back_to_previous_question st).current_question_index =
        st.current_question_index - 1)) ∧
  ((advance_to_next_question catalog a fo now st).current_question_index =
      st.current_question_index ∨
    ((advance_to_next_question catalog a fo now st).current_question_index =
        st.current_question_index + 1 ∧
      (advance_to_next_question catalog a fo now st).validation_error = Option.none)) ∧
  (0 ≤ (advance_to_next_question catalog a fo now st).current_question_index) ∧
  (∀ st', submit_questionnaire m email d now st = some st' →
    ((st'.current_question_index = st.current_question_index ∧
        st'.form_session = st.form_session) ∨
      (st'.current_question_index = st.current_question_index + 1 ∧
        st'.form_session.completion_status = true)) ∧
    0 ≤ st'.current_question_index)

/-- C7: from any state with a nonnegative cursor, the cursor stays
nonnegative, back navigation at 0 leaves it at 0, and the cursor moves
only by +1 on a successfully validated advance or completion, or by −1
on back navigation from a positive cursor. -/
theorem C7_cursor (catalog : List Question) (a : Answer)
    (fo : Bool × List FileReference × Option String) (now : ℚ)
    (m : List (String × Question)) (email : String) (d : Bool) (st : AppState)
    (hnn : 0 ≤ st.current_question_index) :
    C7Prop catalog a fo now m email d st := by
  refine ⟨?_, ?_, ?_, ?_, ?_, ?_⟩
  · intro h0
    simp [go_back_to_previous_question, h0]
  · by_cases h : st.current_question_index > 0 <;>
      simp [go_back_to_previous_question, h] <;> omega
  · by_cases h : st.current_question_index > 0 <;>
      simp [go_back_to_previous_question, h]
  · unfold advance_to_next_question
    by_cases hge : st.current_question_index ≥ (catalog.length : Int)
    · rw [if_pos hge]
      exact Or.inl rfl
    · rw [if_neg hge]
      by_cases hft : (catalog.getD st.current_question_index.toNat default).type =
          QuestionType.file_upload
      · rw [if_pos hft]
        by_cases hae : answerEmpty a = true
        · rw [if_pos hae]
          exact Or.inl rfl
        · rw [if_neg hae]
          by_cases hfo : fo.1 = true
          · rw [if_pos hfo]
            exact Or.inr ⟨rfl, rfl⟩
          · rw [if_neg hfo]
            exact Or.inl rfl
      · rw [if_neg hft]
        by_cases hres : (validate_response
            (catalog.getD st.current_question_index.toNat default) a).1 = true
        · rw [if_pos hres]
          exact Or.inr ⟨rfl, rfl⟩
        · rw [if_neg hres]
          exact Or.inl rfl
  · unfold advance_to_next_question
    by_cases hge : st.current_question_index ≥ (catalog.length : Int)
    · rw [if_pos hge]
      exact hnn
    · rw [if_neg hge]
      by_cases hft : (catalog.getD st.current_question_index.toNat default).type =
          QuestionType.file_upload
      · rw [if_pos hft]
        by_cases hae : answerEmpty a = true
        · rw [if_pos hae]
          exact hnn
        · rw [if_neg hae]
          by_cases hfo : fo.1 = true
          · rw [if_pos hfo]
            show 0 ≤ st.current_question_index + 1
            omega
          · rw [if_neg hfo]
            exact hnn
      · rw [if_neg hft]
        by_cases hres : (validate_response
            (catalog.getD st.current_question_index.toNat default) a).1 = true
        · rw [if_pos hres]
          show 0 ≤ st.current_question_index + 1
          omega
        · rw [if_neg hres]
          exact hnn
  · intro st' hsub
    unfold submit_questionnaire at hsub
    by_cases hv : (validate_email (some email)).1 = true
    · simp only [hv, if_true] at hsub
      rcases hdoc : (st.form_session.mark_complete email now).to_dict m with _ | doc
      · rw [hdoc] at hsub
        simp at hsub
      · rw [hdoc] at hsub
        obtain rfl : _ = st' := Option.some.inj hsub
        refine ⟨Or.inr ⟨rfl, rfl⟩, by simpa using by omega⟩
    · simp only [Bool.not_eq_true] at hv
      simp only [hv, Bool.false_eq_true, if_false] at hsub
      obtain rfl : _ = st' := Option.some.inj hsub
      exact ⟨Or.inl ⟨rfl, rfl⟩, hnn⟩

/-- Witness for C7 at a concrete state and concrete inputs. -/
theorem C7_cursor_witness :
    (0 ≤ stEmailDemo.current_question_index) ∧
    C7Prop [qReqDemo] (Answer.str "A") (true, [], Option.none) 0
      (questionsMap [qReqDemo]) "user@example.com" true stEmailDemo :=
  ⟨by decide,
   C7_cursor [qReqDemo] (Answer.str "A") (true, [], Option.none) 0
     (questionsMap [qReqDemo]) "user@example.com" true stEmailDemo (by decide)⟩

end CDQ